import Mathlib

/-!
Shallow embedding of the payload-range envelope / grid / sweep engine of
`src/fastoad/gui/payload_range/payload_range_file.py`, together with theorems
settling the specification claims about it.

Conventions of the embedding:
* Python/numpy floating-point numbers are modelled as rationals (`ℚ`); the
  nonlinear solver `scipy.optimize.fsolve` is an external collaborator and is
  modelled as an oracle function argument (its root contract is expressed
  separately over `ℝ`, where the exponential/logarithm of the Breguet-Leduc
  equation live).
* Fallible numpy indexing (`[0][0]` on an empty `np.where` result, `val[1]` on
  a one-element array) is modelled with `Option`: `none` is an uncaught
  `IndexError`.
* A text file is modelled as a list of lines, each line being its list of
  space-separated tokens (Python writes `"key= " + str(v) + "\n"` and reads
  back `line.split(" ")[-1]`, so the trailing token keeps its newline).
  The numeric renderings `str`/`int`/`float` of Python are external library
  behaviour and appear as render/parse function arguments.
-/

/-- `np.linspace(a, b, n)` (with `endpoint=True`, numpy's default). -/
def linspace (a b : ℚ) (n : ℕ) : List ℚ :=
  if n ≤ 1 then (List.range n).map (fun _ => a)
  else (List.range n).map (fun (i : ℕ) => a + (b - a) * (i : ℚ) / ((n : ℚ) - 1))

/-- `np.arange(start, stop, step)`: `start + k * step` for
`0 ≤ k < ⌈(stop - start) / step⌉`, for either sign of `step`
(empty for `step = 0`, where numpy raises). -/
def arange (start stop step : ℚ) : List ℚ :=
  if step = 0 then []
  else (List.range (⌈(stop - start) / step⌉.toNat)).map
    (fun (k : ℕ) => start + (k : ℚ) * step)

/-- The grid-generation configuration persisted alongside a sweep
(keyword arguments of `grid_generation`, lines 256-266). -/
structure GridSpecRec where
  n_intervals_payloads : ℕ
  range_step : ℚ
  upper_limit_box_tolerance : ℚ
  lower_limit_box_tolerance : ℚ
  right_limit_box_tolerance : ℚ
  left_limit_box_tolerance : ℚ
  alternative_grid : Bool
deriving DecidableEq

/-- The envelope quantities `grid_generation` extracts from the output of
`breguet_leduc_points` (lines 302-308): payloads are already in tonnes. -/
structure Envelope where
  max_payload : ℚ
  payload_c : ℚ
  ra_b : ℚ
  ra_c : ℚ
  ra_d : ℚ
deriving DecidableEq

/-- Line 313: `val_payloads = np.linspace(lower * max_payload, upper * max_payload, n)`. -/
def val_payloads (env : Envelope) (s : GridSpecRec) : List ℚ :=
  linspace (s.lower_limit_box_tolerance * env.max_payload)
    (s.upper_limit_box_tolerance * env.max_payload) s.n_intervals_payloads

/-- Line 319: `ra_c_id = np.where(val_payloads >= payload_c)[0][0]`;
`none` models the `IndexError` raised when no band payload reaches `payload_c`. -/
def raCId (env : Envelope) (s : GridSpecRec) : Option ℕ :=
  (val_payloads env s).findIdx? (fun v => decide (env.payload_c ≤ v))

/-- Lines 323-329: per-band max range, piecewise linear with breakpoint `c_id`,
then multiplied by the right box tolerance. -/
def maxRangeList (env : Envelope) (s : GridSpecRec) (c_id : ℕ) : List ℚ :=
  ((val_payloads env s).enum.map (fun iv =>
    if iv.1 < c_id then (env.ra_c - env.ra_d) / env.payload_c * iv.2 + env.ra_d
    else (env.ra_b - env.ra_c) / (env.max_payload - env.payload_c) * (iv.2 - env.payload_c)
      + env.ra_c)).map
    (fun r => s.right_limit_box_tolerance * r)

/-- Lines 331-333: `min_range = left * ra_b`, floored at one `range_step`. -/
def minRange (env : Envelope) (s : GridSpecRec) : ℚ :=
  let m := s.left_limit_box_tolerance * env.ra_b
  if m < s.range_step then s.range_step else m

/-- Lines 370-372: base row of the rectangular policy,
`np.flip(np.arange(max_range[-1], min_range, -range_step))`. -/
def baseRow (env : Envelope) (s : GridSpecRec) (c_id : ℕ) : List ℚ :=
  (arange ((maxRangeList env s c_id).getLastD 0) (minRange env s) (-s.range_step)).reverse

/-- Lines 375-377: each successive row is the previous row with one extra max
range appended; `ms` is the sequence `max_range[-2], max_range[-3], ...`. -/
def rowsLoop (prev : List ℚ) : List ℚ → List (List ℚ)
  | [] => []
  | m :: ms => (prev ++ [m]) :: rowsLoop (prev ++ [m]) ms

/-- Lines 368-378: the per-band rows of the rectangular policy (`grid_x` after
the extension loop and the final `grid_x.reverse()`). -/
def rectRows (env : Envelope) (s : GridSpecRec) (c_id : ℕ) : List (List ℚ) :=
  let base := baseRow env s c_id
  (base :: rowsLoop base ((maxRangeList env s c_id).dropLast.reverse)).reverse

/-- The grid produced by `grid_generation`: the flat `grid_ranges` and
`grid_payloads` arrays and the per-band counts `n_values_ranges`. -/
structure GridOut where
  ranges : List ℚ
  payloads : List ℚ
  counts : List ℕ
deriving DecidableEq

/-- Lines 380-383 (and 361-363 for the alternative policy): flatten per-band
rows into `grid_ranges`, `grid_payloads`, `n_values_ranges`. -/
def assembleGrid (rows : List (List ℚ)) (vals : List ℚ) : GridOut :=
  ⟨rows.flatten,
   ((rows.zip vals).map (fun rv => List.replicate rv.1.length rv.2)).flatten,
   rows.map List.length⟩

/-- Lines 310-388: grid generation. `none` models an uncaught `IndexError`
(breakpoint search on line 319, or `val_payloads[1]` on line 346 when fewer
than two bands are requested with the alternative policy). -/
def gridGeneration (env : Envelope) (s : GridSpecRec) : Option GridOut :=
  match raCId env s with
  | none => none
  | some c_id =>
    let vals := val_payloads env s
    let mr := maxRangeList env s c_id
    if s.alternative_grid then
      match vals with
      | v0 :: v1 :: _ =>
        let pente := (env.payload_c - env.max_payload) / (env.ra_c - env.ra_b)
        let delta_x := -(v1 - v0) / pente
        let rect := arange (minRange env s) env.ra_b s.range_step
        if rect = [] then some ⟨[], [], []⟩
        else
          some (assembleGrid
            (mr.map (fun m => rect ++ arange (rect.getLastD 0) (m + 1) delta_x)) vals)
      | _ => none
    else
      some (assembleGrid (rectRows env s c_id) vals)

/-- Lines 56-59: the residual of the modified Breguet-Leduc range equation,
expressed as a root predicate over `ℝ` (`rq` is `mass_in / mass_out`).
`scipy.optimize.fsolve` is an external numeric collaborator; its contract is
that the value it returns is a root of `non_linear_function`. -/
def isBreguetRoot (rq constant_coeff ra : ℝ) : Prop :=
  ra - (1 - 0.895 * Real.exp (-ra / 814)) * constant_coeff * Real.log rq = 0

/-- Lines 162-185 of `breguet_leduc_points`, from the point where the Breguet
coefficient `coeff` (line 160, derived from the external atmosphere and
propulsion collaborators) is available.  `solver mass_in mass_out coeff x0`
is the oracle for `breguet_leduc_formula`.  Returns `(BL_ranges, BL_payloads)`. -/
def breguetLeducPoints (solver : ℚ → ℚ → ℚ → ℚ → ℚ)
    (sizing_range max_payload sizing_payload mtow owe mfw coeff : ℚ) :
    List ℚ × List ℚ :=
  let mass_in := mtow
  let mass_out := mtow - mfw
  let payload_c := mtow - mfw - owe
  let ra_c := solver mass_in mass_out coeff (sizing_range * 10)
  let payload_b := max_payload
  let ra_b0 := (sizing_range - ra_c) * (payload_b - payload_c)
    / (sizing_payload - payload_c) + ra_c
  let ra_b := if ra_b0 < 0 then solver mtow (owe + payload_b) coeff (sizing_range * 10)
    else ra_b0
  let ra_d := solver (owe + mfw) owe coeff (sizing_range * 10)
  ([0, ra_b, ra_c, ra_d, sizing_range],
   [max_payload, payload_b, payload_c, 0, sizing_payload].map (fun x => x / 10 ^ 3))

/-- Lines 302-308: how `grid_generation` reads the envelope out of the
`(BL_ranges, BL_payloads)` pair returned by `breguet_leduc_points`. -/
def mkEnvelope (bl : List ℚ × List ℚ) : Envelope :=
  ⟨bl.2.getD 0 0, bl.2.getD 2 0, bl.1.getD 1 0, bl.1.getD 2 0, bl.1.getD 3 0⟩

/-- The four per-segment fuel-burn totals read back from the mission
simulator's output file (lines 663-666). -/
structure FuelComps where
  main_route : ℚ
  takeoff : ℚ
  taxi_in : ℚ
  taxi_out : ℚ

/-- Lines 647-669: the sweep loop.  `sim payload range_m` is the external
mission simulator (invoked with the payload written on line 651 and the range
in metres written on lines 652-654); each grid point's raw fuel is the sum of
the four components. -/
def sweepRawFuel (sim : ℚ → ℚ → FuelComps) (g : GridOut) : List ℚ :=
  (List.range g.ranges.length).map (fun i =>
    let comps := sim (g.payloads.getD i 0) (g.ranges.getD i 0 * 10 ^ 3 * 1.852)
    comps.main_route + comps.takeoff + comps.taxi_in + comps.taxi_out)

/-- Lines 683-684: normalise the raw fuel masses into specific consumption and
write the `(range, payload, specific_consumption)` table (`np.savetxt(grid.T)`:
one row per grid point, in generation order). -/
def runSweep (sim : ℚ → ℚ → FuelComps) (g : GridOut) : List (ℚ × ℚ × ℚ) :=
  (List.range g.ranges.length).map (fun i =>
    (g.ranges.getD i 0, g.payloads.getD i 0,
     (sweepRawFuel sim g).getD i 0 / (g.payloads.getD i 0 * g.ranges.getD i 0 * 1.852 * 10 ^ 3)))

/-- Lines 692-706: the grid-descriptor file written next to the result table.
A line is modelled as its list of space-separated tokens; the trailing token
keeps Python's newline.  `renderN` and `renderQ` model Python's `str` on the
numeric field values (external library behaviour). -/
def writeGridConfig (renderN : ℕ → String) (renderQ : ℚ → String)
    (file_save : String) (s : GridSpecRec) : List (List String) :=
  [ ["This", "is", "the", "file", "which", "contains", "the", "grid", "parameters",
     "for", "the", "results", "in", "file", ":", file_save ++ "\n"],
    ["n_intervals_payloads=", renderN s.n_intervals_payloads ++ "\n"],
    ["range_step=", renderQ s.range_step ++ "\n"],
    ["upper_limit_box_tolerance=", renderQ s.upper_limit_box_tolerance ++ "\n"],
    ["lower_limit_box_tolerance=", renderQ s.lower_limit_box_tolerance ++ "\n"],
    ["right_limit_box_tolerance=", renderQ s.right_limit_box_tolerance ++ "\n"],
    ["left_limit_box_tolerance=", renderQ s.left_limit_box_tolerance ++ "\n"],
    ["alternative_grid=", (if s.alternative_grid then "True" else "False") ++ "\n"] ]

/-- `line.split(" ")[-1]`: the last space-separated token of a line. -/
def lastTok (l : List String) : String := l.getLastD ""

/-- Lines 752-761 of `payload_range_full`: skip the header
(`readlines()[1:]`), take the last token of each of the next seven lines, and
decode the field values.  `parseN`, `parseZ`, `parseQ` model Python's
`int`/`int`/`float` (which ignore the trailing newline and may raise
`ValueError`, modelled by `none`); the `alternative_grid` flag is decoded by
the literal comparison `== "True\n"` of line 761.  `none` also models the
`IndexError` raised when the file has fewer than eight lines. -/
def parseGridConfig (parseN : String → Option ℕ) (parseZ : String → Option ℤ)
    (parseQ : String → Option ℚ) (file : List (List String)) : Option GridSpecRec :=
  let ls := file.drop 1
  match ls.get? 0, ls.get? 1, ls.get? 2, ls.get? 3, ls.get? 4, ls.get? 5, ls.get? 6 with
  | some l0, some l1, some l2, some l3, some l4, some l5, some l6 =>
    match parseN (lastTok l0), parseZ (lastTok l1), parseQ (lastTok l2),
        parseQ (lastTok l3), parseQ (lastTok l4), parseQ (lastTok l5) with
    | some n, some st, some up, some lo, some ri, some le =>
      some ⟨n, (st : ℚ), up, lo, ri, le, lastTok l6 == "True\n"⟩
    | _, _, _, _, _, _ => none
  | _, _, _, _, _, _, _ => none

/-- The two sibling files a sweep persists (`data/loop_results.txt` and
`data/grid_loop_results.txt`); `none` means the file does not exist on disk. -/
structure SweepFiles where
  gridConfigFile : Option (List (List String))
  resultsFile : Option (List (ℚ × ℚ × ℚ))

/-- The `(x_axis, y_axis, z_matrix)` triple handed to the contour renderer. -/
structure Surface where
  x : List ℚ
  y : List ℚ
  z : List (List (Option ℚ))

/-- `sum(n_values_ranges[0:i])` (line 802). -/
def prefixCount (counts : List ℕ) (i : ℕ) : ℕ := (counts.take i).sum

/-- Lines 794-803: rebuild the dense consumption surface from the flat result
table `rows` and the regenerated band counts.  Row `i` of `z` starts as
`[None] * n_values_ranges[0]` and its first `n_values_ranges[i]` cells are
overwritten by the matching slice of the consumption column (Python slice
assignment `z[i][0:c] = vals` yields `vals ++ z[i][c:]`). -/
def reconstructSurface (rows : List (ℚ × ℚ × ℚ)) (n : ℕ) (counts : List ℕ) : Surface :=
  let res0 := rows.map (fun t => t.1)
  let res1 := rows.map (fun t => t.2.1)
  let res2 := rows.map (fun t => t.2.2)
  let c0 := counts.getD 0 0
  let x := res0.take c0
  let y := linspace (res1.foldl min (res1.headD 0)) (res1.foldl max (res1.headD 0)) n
  let z := (List.range n).map (fun i =>
    let ci := counts.getD i 0
    let vals := (res2.drop (prefixCount counts i)).take ci
    vals.map (fun v => some v) ++ (List.replicate c0 (none : Option ℚ)).drop ci)
  ⟨x, y, z⟩

/-- The ways `payload_range_full` can escape without producing a figure. -/
inductive PRFault
  | fileAbsent   -- `FileNotFoundError` from the bare `open()` on line 751
  | badParse     -- `ValueError`/`IndexError` while decoding the grid file
  | badIndex     -- `IndexError` from the breakpoint search inside `grid_generation`
  | emptyTable   -- `min()`/`max()` on an empty result table
deriving DecidableEq

/-- Lines 750-826 of `payload_range_full` (the spec's `load_surface`): read the
grid-descriptor file (the bare `open` of line 751 — a missing file raises an
uncaught `FileNotFoundError`), decode the `GridSpec`, regenerate the grid, then
`try` to load the result table; only that load is guarded (lines 790 and 822),
a missing table being reported as "run the sweep first" (modelled by
`.ok none`: the figure is produced without a contour). -/
def payloadRangeFull (env : Envelope) (parseN : String → Option ℕ)
    (parseZ : String → Option ℤ) (parseQ : String → Option ℚ)
    (files : SweepFiles) : Except PRFault (Option Surface) :=
  match files.gridConfigFile with
  | none => .error .fileAbsent
  | some cfg =>
    match parseGridConfig parseN parseZ parseQ cfg with
    | none => .error .badParse
    | some s =>
      match gridGeneration env s with
      | none => .error .badIndex
      | some g =>
        let nIp := if s.alternative_grid then g.counts.length else s.n_intervals_payloads
        match files.resultsFile with
        | none => .ok none
        | some rows =>
          if rows = [] then .error .emptyTable
          else .ok (some (reconstructSurface rows nIp g.counts))

/-! ## Structural helper lemmas -/

lemma getD_reverse {α : Type} (l : List α) (d : α) (i : ℕ) (h : i < l.length) :
    l.reverse.getD i d = l.getD (l.length - 1 - i) d := by
  rw [List.getD_eq_getElem _ d (by simpa), List.getElem_reverse,
    List.getD_eq_getElem _ d (by omega)]

lemma getD_range_map {α : Type} (f : ℕ → α) (n i : ℕ) (d : α) (h : i < n) :
    ((List.range n).map f).getD i d = f i := by
  rw [List.getD_eq_getElem _ d (by simpa), List.getElem_map, List.getElem_range]

lemma linspace_length (a b : ℚ) (n : ℕ) : (linspace a b n).length = n := by
  unfold linspace; split <;> rw [List.length_map, List.length_range]

lemma val_payloads_length (env : Envelope) (s : GridSpecRec) :
    (val_payloads env s).length = s.n_intervals_payloads :=
  linspace_length _ _ _

lemma maxRangeList_length (env : Envelope) (s : GridSpecRec) (c_id : ℕ) :
    (maxRangeList env s c_id).length = s.n_intervals_payloads := by
  unfold maxRangeList
  simp [val_payloads_length]

lemma raCId_some_npos (env : Envelope) (s : GridSpecRec) (c_id : ℕ)
    (hc : raCId env s = some c_id) : 1 ≤ s.n_intervals_payloads := by
  by_contra h
  have hn : s.n_intervals_payloads = 0 := by omega
  have hlen : (val_payloads env s).length = 0 := by rw [val_payloads_length, hn]
  have hnil : val_payloads env s = [] := List.length_eq_zero.mp hlen
  unfold raCId at hc
  rw [hnil] at hc
  simp at hc

lemma rowsLoop_length (prev : List ℚ) (l : List ℚ) :
    (rowsLoop prev l).length = l.length := by
  induction l generalizing prev with
  | nil => simp [rowsLoop]
  | cons m ms ih => simp [rowsLoop, ih]

lemma rowsLoop_map_length (l : List ℚ) (prev : List ℚ) :
    (rowsLoop prev l).map List.length
      = (List.range l.length).map (fun k => prev.length + k + 1) := by
  induction l generalizing prev with
  | nil => simp [rowsLoop]
  | cons m ms ih =>
    simp only [rowsLoop, List.map_cons, List.length_append, List.length_cons,
      List.length_nil, List.range_succ_eq_map, List.map_map, ih]
    refine List.cons_eq_cons.mpr ⟨by omega, ?_⟩
    apply List.map_congr_left
    intro k _
    simp only [Function.comp_apply]
    omega

/-- The per-band counts of the rectangular policy: with `n` bands and a base
row of length `L`, the counts list is `[L + n - 1, ..., L + 1, L]`. -/
lemma rectRows_counts_getD (env : Envelope) (s : GridSpecRec) (c_id : ℕ)
    (hn : 1 ≤ s.n_intervals_payloads) (i : ℕ) (hi : i < s.n_intervals_payloads) :
    ((rectRows env s c_id).map List.length).getD i 0
      = (baseRow env s c_id).length + (s.n_intervals_payloads - 1 - i) := by
  unfold rectRows
  have hml : (maxRangeList env s c_id).dropLast.reverse.length
      = s.n_intervals_payloads - 1 := by
    simp [maxRangeList_length]
  rw [List.map_reverse]
  have hinner : ((baseRow env s c_id :: rowsLoop (baseRow env s c_id)
      (maxRangeList env s c_id).dropLast.reverse).map List.length)
      = (baseRow env s c_id).length :: (List.range (s.n_intervals_payloads - 1)).map
          (fun k => (baseRow env s c_id).length + k + 1) := by
    rw [List.map_cons, rowsLoop_map_length, hml]
  rw [hinner]
  have hlen : ((baseRow env s c_id).length :: (List.range (s.n_intervals_payloads - 1)).map
      (fun k => (baseRow env s c_id).length + k + 1)).length = s.n_intervals_payloads := by
    simp; omega
  rw [getD_reverse _ _ _ (by rw [hlen]; exact hi), hlen]
  rcases Nat.eq_zero_or_pos (s.n_intervals_payloads - 1 - i) with h0 | hpos
  · rw [h0]
    simp only [List.getD_cons_zero]
    omega
  · have hj : s.n_intervals_payloads - 1 - i = (s.n_intervals_payloads - 1 - i - 1) + 1 := by
      omega
    rw [hj]
    simp only [List.getD_cons_succ]
    rw [getD_range_map _ _ _ _ (by omega)]
    omega

lemma rectRows_length (env : Envelope) (s : GridSpecRec) (c_id : ℕ)
    (hn : 1 ≤ s.n_intervals_payloads) :
    (rectRows env s c_id).length = s.n_intervals_payloads := by
  unfold rectRows
  simp [rowsLoop_length, maxRangeList_length]
  omega

lemma gridGeneration_rect (env : Envelope) (s : GridSpecRec) (c_id : ℕ)
    (hc : raCId env s = some c_id) (halt : s.alternative_grid = false) :
    gridGeneration env s
      = some (assembleGrid (rectRows env s c_id) (val_payloads env s)) := by
  unfold gridGeneration
  rw [hc, halt]
  simp

lemma assembleGrid_counts (rows : List (List ℚ)) (vals : List ℚ) :
    (assembleGrid rows vals).counts = rows.map List.length := rfl

lemma assembleGrid_ranges_length (rows : List (List ℚ)) (vals : List ℚ) :
    (assembleGrid rows vals).ranges.length = (assembleGrid rows vals).counts.sum := by
  simp [assembleGrid, List.length_flatten]

/-! ## Claim theorems -/

/-- C7: For every input to the nonlinear range solver `breguet_leduc_formula`
with `mass_in == mass_out` (mass ratio 1), any constant coefficient and any
initial guess, the solver returns range 0: with ratio 1 the residual
`non_linear_function` collapses to `ra ↦ ra`, whose unique root is 0, so any
root returned by `fsolve` is 0 regardless of `constant_coeff` and `x0`. -/
theorem C7_solver_unit_mass_ratio (mass constant_coeff x0 ra : ℝ)
    (hm : mass ≠ 0) (hroot : isBreguetRoot (mass / mass) constant_coeff ra) :
    ra = 0 := by
  unfold isBreguetRoot at hroot
  rw [div_self hm, Real.log_one, mul_zero] at hroot
  linarith

theorem C7_solver_unit_mass_ratio_witness :
    (1 : ℝ) ≠ 0 ∧ isBreguetRoot ((1 : ℝ) / 1) 5 0 ∧ (0 : ℝ) = 0 :=
  ⟨one_ne_zero, by unfold isBreguetRoot; simp,
   C7_solver_unit_mass_ratio 1 5 3 0 one_ne_zero (by unfold isBreguetRoot; simp)⟩

/-- C6: point B's range is the linear interpolation
`(design_range - ra_c) * (max_payload - payload_c) / (design_payload - payload_c) + ra_c`
whenever that value is non-negative, and whenever it is negative it is instead
obtained from the solver with `mass_in = MTOW`, `mass_out = OWE + max_payload`
(lines 171-177). -/
theorem C6_point_b_interpolation_fallback (solver : ℚ → ℚ → ℚ → ℚ → ℚ)
    (sizing_range max_payload sizing_payload mtow owe mfw coeff : ℚ) :
    ((sizing_range - solver mtow (mtow - mfw) coeff (sizing_range * 10))
          * (max_payload - (mtow - mfw - owe)) / (sizing_payload - (mtow - mfw - owe))
        + solver mtow (mtow - mfw) coeff (sizing_range * 10) < 0 →
      (breguetLeducPoints solver sizing_range max_payload sizing_payload
          mtow owe mfw coeff).1.getD 1 0
        = solver mtow (owe + max_payload) coeff (sizing_range * 10)) ∧
    (0 ≤ (sizing_range - solver mtow (mtow - mfw) coeff (sizing_range * 10))
          * (max_payload - (mtow - mfw - owe)) / (sizing_payload - (mtow - mfw - owe))
        + solver mtow (mtow - mfw) coeff (sizing_range * 10) →
      (breguetLeducPoints solver sizing_range max_payload sizing_payload
          mtow owe mfw coeff).1.getD 1 0
        = (sizing_range - solver mtow (mtow - mfw) coeff (sizing_range * 10))
          * (max_payload - (mtow - mfw - owe)) / (sizing_payload - (mtow - mfw - owe))
          + solver mtow (mtow - mfw) coeff (sizing_range * 10)) := by
  constructor <;> intro h <;>
    simp only [breguetLeducPoints, List.getD_cons_succ, List.getD_cons_zero]
  · rw [if_pos h]
  · rw [if_neg (not_lt.mpr h)]

/-- A concrete solver oracle for the C6 witness: distinguishes the fallback
call (`mass_out = owe + max_payload = 140`) from the point-C call. -/
def exSolverC6 : ℚ → ℚ → ℚ → ℚ → ℚ := fun _ mo _ _ => if mo = 140 then 777 else 2000

theorem C6_point_b_interpolation_fallback_witness :
    ((10 : ℚ) - exSolverC6 100 (100 - 30) 1 (10 * 10))
        * (90 - (100 - 30 - 50)) / (40 - (100 - 30 - 50))
        + exSolverC6 100 (100 - 30) 1 (10 * 10) < 0 ∧
    (breguetLeducPoints exSolverC6 10 90 40 100 50 30 1).1.getD 1 0
      = exSolverC6 100 (50 + 90) 1 (10 * 10) :=
  ⟨by norm_num [exSolverC6],
   (C6_point_b_interpolation_fallback exSolverC6 10 90 40 100 50 30 1).1
     (by norm_num [exSolverC6])⟩

/-- C5: after the sweep, the persisted specific consumption of grid point `i`
is the sum of the four fuel-burn components returned by the simulator at that
point, divided by `payload_i * range_i * 1.852 * 10^3` (lines 663-669 and
683-684); the simulator is invoked with the point's payload and its range
converted to metres. -/
theorem C5_specific_consumption (sim : ℚ → ℚ → FuelComps) (g : GridOut) (i : ℕ)
    (h : i < g.ranges.length) :
    (runSweep sim g).getD i (0, 0, 0)
      = (g.ranges.getD i 0, g.payloads.getD i 0,
         ((sim (g.payloads.getD i 0) (g.ranges.getD i 0 * 10 ^ 3 * 1.852)).main_route
           + (sim (g.payloads.getD i 0) (g.ranges.getD i 0 * 10 ^ 3 * 1.852)).takeoff
           + (sim (g.payloads.getD i 0) (g.ranges.getD i 0 * 10 ^ 3 * 1.852)).taxi_in
           + (sim (g.payloads.getD i 0) (g.ranges.getD i 0 * 10 ^ 3 * 1.852)).taxi_out)
         / (g.payloads.getD i 0 * g.ranges.getD i 0 * 1.852 * 10 ^ 3)) := by
  unfold runSweep
  rw [getD_range_map _ _ _ _ h]
  unfold sweepRawFuel
  rw [getD_range_map _ _ _ _ h]

def exSimC5 : ℚ → ℚ → FuelComps := fun p r => ⟨p + r, 1, 2, 3⟩

def exGridC5 : GridOut := ⟨[100], [5], [1]⟩

theorem C5_specific_consumption_witness :
    0 < exGridC5.ranges.length ∧
    (runSweep exSimC5 exGridC5).getD 0 (0, 0, 0)
      = (exGridC5.ranges.getD 0 0, exGridC5.payloads.getD 0 0,
         ((exSimC5 (exGridC5.payloads.getD 0 0)
             (exGridC5.ranges.getD 0 0 * 10 ^ 3 * 1.852)).main_route
           + (exSimC5 (exGridC5.payloads.getD 0 0)
             (exGridC5.ranges.getD 0 0 * 10 ^ 3 * 1.852)).takeoff
           + (exSimC5 (exGridC5.payloads.getD 0 0)
             (exGridC5.ranges.getD 0 0 * 10 ^ 3 * 1.852)).taxi_in
           + (exSimC5 (exGridC5.payloads.getD 0 0)
             (exGridC5.ranges.getD 0 0 * 10 ^ 3 * 1.852)).taxi_out)
         / (exGridC5.payloads.getD 0 0 * exGridC5.ranges.getD 0 0 * 1.852 * 10 ^ 3)) :=
  ⟨by simp [exGridC5], C5_specific_consumption exSimC5 exGridC5 0 (by simp [exGridC5])⟩

/-- C2: when the sweep was never run (neither the result table nor the sibling
grid-descriptor file exists), `payload_range_full` does NOT catch the missing
artifact: the bare `open()` of the grid-descriptor file on line 751 sits
outside the `try`/`except OSError` block (lines 790-826, which only guard
`np.loadtxt` of the result table), so the call escapes with an unhandled
`FileNotFoundError` instead of the "run the sweep first" report. -/
theorem C2_missing_artifact_unhandled (env : Envelope)
    (parseN : String → Option ℕ) (parseZ : String → Option ℤ)
    (parseQ : String → Option ℚ) :
    payloadRangeFull env parseN parseZ parseQ ⟨none, none⟩
      = .error .fileAbsent := rfl

/-- Concrete envelope for counterexamples: `max_payload = 10` t,
`payload_c = 6` t, `ra_b = 1000`, `ra_c = 2000`, `ra_d = 3000` NM. -/
def exEnvC1 : Envelope := ⟨10, 6, 1000, 2000, 3000⟩

/-- Two payload bands, 500 NM step, default box tolerances, rectangular. -/
def exSpecC1 : GridSpecRec := ⟨2, 500, 95/100, 4/10, 95/100, 1/10, false⟩

/-- C1 counterexample: with two bands the rectangular policy yields
`band_counts = [3, 2]` — band 1 has one point FEWER than band 0
(`grid_x.reverse()` on line 378 puts the longest row first), so
`band_counts[1] = band_counts[0] + 1` fails. -/
theorem C1_rect_band_counts_counterexample :
    exSpecC1.alternative_grid = false ∧ exSpecC1.n_intervals_payloads = 2 ∧
    (gridGeneration exEnvC1 exSpecC1).map GridOut.counts = some [3, 2] ∧
    ¬ (([3, 2] : List ℕ).getD 1 0 = ([3, 2] : List ℕ).getD 0 0 + 1) :=
  ⟨rfl, rfl, by with_unfolding_all rfl, by decide⟩

/-- C1 (amended): under the rectangular policy the `band_counts` array has
length `n_intervals_payloads`, its sum is the total number of grid points, and
successive counts DECREASE by exactly one:
`band_counts[i] + 1 = band_counts[i-1]` for `1 ≤ i < n` (the claim asserted
they increase by one). -/
theorem C1_rect_band_counts (env : Envelope) (s : GridSpecRec) (g : GridOut)
    (halt : s.alternative_grid = false) (hg : gridGeneration env s = some g) :
    g.counts.length = s.n_intervals_payloads ∧
    g.counts.sum = g.ranges.length ∧
    ∀ i, 1 ≤ i → i < s.n_intervals_payloads →
      g.counts.getD i 0 + 1 = g.counts.getD (i - 1) 0 := by
  obtain ⟨c_id, hc⟩ : ∃ c, raCId env s = some c := by
    cases hrc : raCId env s with
    | none => unfold gridGeneration at hg; rw [hrc] at hg; simp at hg
    | some c => exact ⟨c, rfl⟩
  have hn := raCId_some_npos env s c_id hc
  have hrect := gridGeneration_rect env s c_id hc halt
  rw [hrect] at hg
  have hg2 : g = assembleGrid (rectRows env s c_id) (val_payloads env s) :=
    (Option.some.inj hg).symm
  subst hg2
  refine ⟨?_, ?_, ?_⟩
  · rw [assembleGrid_counts, List.length_map, rectRows_length env s c_id hn]
  · rw [assembleGrid_ranges_length]
  · intro i h1 hi
    rw [assembleGrid_counts, rectRows_counts_getD env s c_id hn i hi,
      rectRows_counts_getD env s c_id hn (i - 1) (by omega)]
    omega

theorem C1_rect_band_counts_witness :
    exSpecC1.alternative_grid = false ∧
    gridGeneration exEnvC1 exSpecC1
      = some (assembleGrid (rectRows exEnvC1 exSpecC1 1) (val_payloads exEnvC1 exSpecC1)) ∧
    ((assembleGrid (rectRows exEnvC1 exSpecC1 1) (val_payloads exEnvC1 exSpecC1)).counts.length
        = exSpecC1.n_intervals_payloads ∧
      (assembleGrid (rectRows exEnvC1 exSpecC1 1) (val_payloads exEnvC1 exSpecC1)).counts.sum
        = (assembleGrid (rectRows exEnvC1 exSpecC1 1) (val_payloads exEnvC1 exSpecC1)).ranges.length ∧
      ∀ i, 1 ≤ i → i < exSpecC1.n_intervals_payloads →
        (assembleGrid (rectRows exEnvC1 exSpecC1 1) (val_payloads exEnvC1 exSpecC1)).counts.getD i 0 + 1
          = (assembleGrid (rectRows exEnvC1 exSpecC1 1) (val_payloads exEnvC1 exSpecC1)).counts.getD (i - 1) 0) :=
  ⟨rfl, by with_unfolding_all rfl,
   C1_rect_band_counts exEnvC1 exSpecC1 _ rfl (by with_unfolding_all rfl)⟩

lemma mem_linspace_le_max (a b : ℚ) (n : ℕ) (v : ℚ) (hv : v ∈ linspace a b n) :
    v ≤ max a b := by
  unfold linspace at hv
  split at hv
  · obtain ⟨i, _, rfl⟩ := List.mem_map.mp hv
    exact le_max_left a b
  · obtain ⟨i, hi, rfl⟩ := List.mem_map.mp hv
    have hn2 : 2 ≤ n := by omega
    have hipos : (0 : ℚ) ≤ (i : ℚ) := by positivity
    have hnpos : (0 : ℚ) < (n : ℚ) - 1 := by
      have : (2 : ℚ) ≤ (n : ℚ) := by exact_mod_cast hn2
      linarith
    have hile : (i : ℚ) ≤ (n : ℚ) - 1 := by
      have : i + 1 ≤ n := List.mem_range.mp hi
      have : ((i : ℚ) + 1) ≤ (n : ℚ) := by exact_mod_cast this
      linarith
    have ht0 : (0 : ℚ) ≤ (i : ℚ) / ((n : ℚ) - 1) := by positivity
    have ht1 : (i : ℚ) / ((n : ℚ) - 1) ≤ 1 := by
      rw [div_le_one hnpos]; exact hile
    rw [mul_div_assoc]
    rcases le_total a b with hab | hba
    · rw [max_eq_right hab]
      have : (b - a) * ((i : ℚ) / ((n : ℚ) - 1)) ≤ (b - a) * 1 :=
        mul_le_mul_of_nonneg_left ht1 (by linarith)
      linarith
    · rw [max_eq_left hba]
      have : (b - a) * ((i : ℚ) / ((n : ℚ) - 1)) ≤ 0 :=
        mul_nonpos_of_nonpos_of_nonneg (by linarith) ht0
      linarith

/-- Concrete envelope with `payload_c` exactly at the top band payload
`0.95 * max_payload = 9.5`. -/
def exEnvC8 : Envelope := ⟨10, 19/2, 1000, 2000, 3000⟩

/-- An envelope whose `payload_c = 20` exceeds every band payload. -/
def exEnvC8b : Envelope := ⟨10, 20, 1000, 2000, 3000⟩

/-- C8 counterexample: when `payload_c` EQUALS
`upper_limit_box_tolerance * max_payload`, the breakpoint search of line 319
succeeds (the last band payload satisfies `>=`), and grid generation produces
a grid — it does not fail.  The claim's "equals or exceeds" is wrong at
equality. -/
theorem C8_config_error_counterexample :
    exEnvC8.payload_c = exSpecC1.upper_limit_box_tolerance * exEnvC8.max_payload ∧
    (gridGeneration exEnvC8 exSpecC1).isSome = true :=
  ⟨by norm_num [exEnvC8, exSpecC1], by with_unfolding_all rfl⟩

/-- C8 (amended): only when `payload_c` STRICTLY exceeds every band payload
(in particular both `upper_limit_box_tolerance * max_payload` and
`lower_limit_box_tolerance * max_payload`) does grid generation fail before
producing any grid — and the failure is the uncaught `IndexError` of
`np.where(...)[0][0]` (line 319), not a configuration error reported with the
offending parameter. -/
theorem C8_payload_c_above_bands (env : Envelope) (s : GridSpecRec)
    (h1 : s.upper_limit_box_tolerance * env.max_payload < env.payload_c)
    (h2 : s.lower_limit_box_tolerance * env.max_payload < env.payload_c) :
    gridGeneration env s = none := by
  have hnone : raCId env s = none := by
    unfold raCId
    rw [List.findIdx?_eq_none_iff]
    intro v hvmem
    rw [decide_eq_false_iff_not]
    intro hle
    have hmax := mem_linspace_le_max _ _ _ v hvmem
    have : max (s.lower_limit_box_tolerance * env.max_payload)
        (s.upper_limit_box_tolerance * env.max_payload) < env.payload_c := max_lt h2 h1
    unfold val_payloads at hmax
    linarith
  unfold gridGeneration
  rw [hnone]

theorem C8_payload_c_above_bands_witness :
    exSpecC1.upper_limit_box_tolerance * exEnvC8b.max_payload < exEnvC8b.payload_c ∧
    exSpecC1.lower_limit_box_tolerance * exEnvC8b.max_payload < exEnvC8b.payload_c ∧
    gridGeneration exEnvC8b exSpecC1 = none :=
  ⟨by norm_num [exEnvC8b, exSpecC1], by norm_num [exEnvC8b, exSpecC1],
   C8_payload_c_above_bands exEnvC8b exSpecC1
     (by norm_num [exEnvC8b, exSpecC1]) (by norm_num [exEnvC8b, exSpecC1])⟩

lemma arange_length (start stop step : ℚ) (hs : step ≠ 0) :
    (arange start stop step).length = ⌈(stop - start) / step⌉.toNat := by
  unfold arange
  rw [if_neg hs, List.length_map, List.length_range]

lemma arange_getD (start stop step : ℚ) (hs : step ≠ 0) (k : ℕ) (d : ℚ)
    (hk : k < ⌈(stop - start) / step⌉.toNat) :
    (arange start stop step).getD k d = start + (k : ℚ) * step := by
  unfold arange
  rw [if_neg hs, getD_range_map _ _ _ _ hk]

lemma mem_arange_of_neg (start stop step : ℚ) (hstep : step < 0) (x : ℚ)
    (hx : x ∈ arange start stop step) : stop < x := by
  unfold arange at hx
  rw [if_neg (ne_of_lt hstep)] at hx
  obtain ⟨k, hk, rfl⟩ := List.mem_map.mp hx
  have hkc : (k : ℚ) < (stop - start) / step := by
    have hkn := List.mem_range.mp hk
    have hz : (k : ℤ) < ⌈(stop - start) / step⌉ := Int.lt_toNat.mp hkn
    exact_mod_cast Int.lt_ceil.mp hz
  have hmul := mul_lt_mul_of_neg_right hkc hstep
  rw [div_mul_cancel₀ _ (ne_of_lt hstep)] at hmul
  linarith

/-- C9 (amended): the rectangular policy's base row is an arithmetic
progression with spacing exactly `range_step`, anchored at the innermost
(highest-payload) band's max range `max_range[-1]` — its LARGEST sample equals
`max_range[-1]` exactly — and descending only while strictly above
`min_range`: every sample is strictly greater than `min_range`, and
`min_range` itself need not be (and generally is not) a sample. -/
theorem C9_rect_base_row (env : Envelope) (s : GridSpecRec) (c_id : ℕ)
    (hstep : 0 < s.range_step) :
    (∀ x ∈ baseRow env s c_id, minRange env s < x) ∧
    (baseRow env s c_id ≠ [] →
      (baseRow env s c_id).getLastD 0 = (maxRangeList env s c_id).getLastD 0) ∧
    (∀ j, j + 1 < (baseRow env s c_id).length →
      (baseRow env s c_id).getD (j + 1) 0 - (baseRow env s c_id).getD j 0
        = s.range_step) := by
  have hsne : -s.range_step ≠ 0 := neg_ne_zero.mpr (ne_of_gt hstep)
  refine ⟨?_, ?_, ?_⟩
  · intro x hx
    rw [baseRow, List.mem_reverse] at hx
    exact mem_arange_of_neg _ _ _ (by linarith) x hx
  · intro hne
    rw [baseRow] at hne ⊢
    cases harange : arange ((maxRangeList env s c_id).getLastD 0) (minRange env s)
        (-s.range_step) with
    | nil => rw [harange] at hne; simp at hne
    | cons a t =>
      have hlen : 0 < (arange ((maxRangeList env s c_id).getLastD 0) (minRange env s)
          (-s.range_step)).length := by rw [harange]; simp
      rw [arange_length _ _ _ hsne] at hlen
      have ha : a = (maxRangeList env s c_id).getLastD 0 := by
        have h0 := arange_getD ((maxRangeList env s c_id).getLastD 0) (minRange env s)
          (-s.range_step) hsne 0 0 hlen
        rw [harange] at h0
        simpa using h0
      rw [List.reverse_cons, List.getLastD_concat, ha]
  · intro j hj
    have hlb : (baseRow env s c_id).length
        = (arange ((maxRangeList env s c_id).getLastD 0) (minRange env s)
            (-s.range_step)).length := by
      rw [baseRow, List.length_reverse]
    rw [arange_length _ _ _ hsne] at hlb
    set cnt := ⌈(minRange env s - (maxRangeList env s c_id).getLastD 0)
      / (-s.range_step)⌉.toNat with hcnt
    have hj' : j + 1 < cnt := by rw [hlb] at hj; exact hj
    have hrev : ∀ i, i < cnt → (baseRow env s c_id).getD i 0
        = (maxRangeList env s c_id).getLastD 0 + ((cnt - 1 - i : ℕ) : ℚ) * (-s.range_step) := by
      intro i hi
      rw [baseRow, getD_reverse _ _ _ (by rw [arange_length _ _ _ hsne]; exact hi),
        arange_length _ _ _ hsne, arange_getD _ _ _ hsne _ _ (by omega)]
    rw [hrev (j + 1) hj', hrev j (by omega)]
    have hsub : (cnt - 1 - j : ℕ) = (cnt - 1 - (j + 1) : ℕ) + 1 := by omega
    rw [hsub]
    push_cast
    ring

theorem C9_rect_base_row_witness :
    (0 : ℚ) < exSpecC1.range_step ∧
    ((∀ x ∈ baseRow exEnvC1 exSpecC1 1, minRange exEnvC1 exSpecC1 < x) ∧
      (baseRow exEnvC1 exSpecC1 1 ≠ [] →
        (baseRow exEnvC1 exSpecC1 1).getLastD 0
          = (maxRangeList exEnvC1 exSpecC1 1).getLastD 0) ∧
      (∀ j, j + 1 < (baseRow exEnvC1 exSpecC1 1).length →
        (baseRow exEnvC1 exSpecC1 1).getD (j + 1) 0
            - (baseRow exEnvC1 exSpecC1 1).getD j 0 = exSpecC1.range_step)) :=
  ⟨by norm_num [exSpecC1],
   C9_rect_base_row exEnvC1 exSpecC1 1 (by norm_num [exSpecC1])⟩

/-- C9 counterexample: for the concrete envelope `exEnvC1` the base row is
`[568.75, 1068.75]` while `min_range = 500`: the smallest sample is not
`min_range`, and `min_range` is not a sample of the base row (the row of the
highest-payload band), because `np.arange(max_range[-1], min_range,
-range_step)` anchors at `max_range[-1]` and excludes its stop value. -/
theorem C9_rect_base_row_counterexample :
    raCId exEnvC1 exSpecC1 = some 1 ∧
    minRange exEnvC1 exSpecC1 = 500 ∧
    baseRow exEnvC1 exSpecC1 1 = [2275/4, 4275/4] ∧
    minRange exEnvC1 exSpecC1 ∉ baseRow exEnvC1 exSpecC1 1 ∧
    (baseRow exEnvC1 exSpecC1 1).getD 0 0 ≠ minRange exEnvC1 exSpecC1 := by
  have hbase : baseRow exEnvC1 exSpecC1 1 = [2275/4, 4275/4] := by with_unfolding_all rfl
  have hmin : minRange exEnvC1 exSpecC1 = 500 := by with_unfolding_all rfl
  refine ⟨by with_unfolding_all rfl, hmin, hbase, ?_, ?_⟩
  · rw [hbase, hmin]
    simp only [List.mem_cons, List.not_mem_nil, or_false]
    push_neg
    norm_num
  · rw [hbase, hmin]
    norm_num

lemma sum_take_getD_le (c : List ℕ) (i : ℕ) (hi : i < c.length) :
    (c.take i).sum + c.getD i 0 ≤ c.sum := by
  have h1 := List.sum_take_succ c i hi
  have h2 : (c.take (i + 1)).sum ≤ c.sum := by
    conv_rhs => rw [← List.take_append_drop (i + 1) c]
    rw [List.sum_append]
    exact Nat.le_add_right _ _
  rw [List.getD_eq_getElem c 0 hi]
  omega

lemma reconstructSurface_y_length (rows : List (ℚ × ℚ × ℚ)) (n : ℕ) (counts : List ℕ) :
    (reconstructSurface rows n counts).y.length = n := by
  unfold reconstructSurface
  exact linspace_length _ _ _

lemma reconstructSurface_z_length (rows : List (ℚ × ℚ × ℚ)) (n : ℕ) (counts : List ℕ) :
    (reconstructSurface rows n counts).z.length = n := by
  unfold reconstructSurface
  simp

lemma reconstructSurface_z_getD (rows : List (ℚ × ℚ × ℚ)) (n : ℕ) (counts : List ℕ)
    (i : ℕ) (hi : i < n) :
    (reconstructSurface rows n counts).z.getD i []
      = (((rows.map (fun t => t.2.2)).drop (prefixCount counts i)).take
          (counts.getD i 0)).map (fun v => some v)
        ++ (List.replicate (counts.getD 0 0) (none : Option ℚ)).drop (counts.getD i 0) := by
  unfold reconstructSurface
  exact getD_range_map _ _ _ _ hi

lemma countP_isSome_shape (vals : List ℚ) (c0 ci : ℕ) :
    ((vals.map (fun v => some v))
      ++ (List.replicate c0 (none : Option ℚ)).drop ci).countP (fun c => c.isSome)
    = vals.length := by
  rw [List.countP_append, List.drop_replicate, List.countP_map]
  have h1 : (List.replicate (c0 - ci) (none : Option ℚ)).countP (fun c => c.isSome) = 0 := by
    rw [List.countP_eq_zero]
    intro a ha
    rw [List.eq_of_mem_replicate ha]
    simp
  have h2 : vals.countP ((fun (c : Option ℚ) => c.isSome) ∘ (fun v => some v))
      = vals.length := by
    rw [List.countP_eq_length]
    intro a _
    rfl
  rw [h1, h2]
  omega

lemma drop_isSome_shape (vals : List ℚ) (c0 ci : ℕ) (hlen : vals.length = ci) :
    ((vals.map (fun v => some v))
      ++ (List.replicate c0 (none : Option ℚ)).drop ci).drop ci
    = List.replicate (c0 - ci) (none : Option ℚ) := by
  rw [List.drop_replicate]
  have hml : (vals.map (fun v => some v)).length = ci := by rw [List.length_map, hlen]
  rw [← hml, List.drop_left]

/-- C3: for a rectangular-policy artifact generated with
`n_intervals_payloads = N` bands, the reconstruction of `payload_range_full`
(lines 784-803) yields a y-axis of length `N` and a z-matrix with `N` rows,
where row `i` has exactly `band_counts[i]` populated cells and every remaining
cell of that row is unset (`None`). -/
theorem C3_reconstruction_shape (env : Envelope) (s : GridSpecRec) (g : GridOut)
    (sim : ℚ → ℚ → FuelComps)
    (halt : s.alternative_grid = false) (hg : gridGeneration env s = some g) :
    (reconstructSurface (runSweep sim g) s.n_intervals_payloads g.counts).y.length
        = s.n_intervals_payloads ∧
    (reconstructSurface (runSweep sim g) s.n_intervals_payloads g.counts).z.length
        = s.n_intervals_payloads ∧
    ∀ i, i < s.n_intervals_payloads →
      ((reconstructSurface (runSweep sim g) s.n_intervals_payloads g.counts).z.getD
          i []).countP (fun c => c.isSome) = g.counts.getD i 0 ∧
      ((reconstructSurface (runSweep sim g) s.n_intervals_payloads g.counts).z.getD
          i []).drop (g.counts.getD i 0)
        = List.replicate (g.counts.getD 0 0 - g.counts.getD i 0) (none : Option ℚ) := by
  obtain ⟨c_id, hc⟩ : ∃ c, raCId env s = some c := by
    cases hrc : raCId env s with
    | none => unfold gridGeneration at hg; rw [hrc] at hg; simp at hg
    | some c => exact ⟨c, rfl⟩
  have hn := raCId_some_npos env s c_id hc
  have hrect := gridGeneration_rect env s c_id hc halt
  rw [hrect] at hg
  have hg2 : g = assembleGrid (rectRows env s c_id) (val_payloads env s) :=
    (Option.some.inj hg).symm
  have hclen : g.counts.length = s.n_intervals_payloads := by
    rw [hg2, assembleGrid_counts, List.length_map, rectRows_length env s c_id hn]
  have hsum : g.ranges.length = g.counts.sum := by
    rw [hg2]; exact assembleGrid_ranges_length _ _
  have hrs_len : (runSweep sim g).length = g.counts.sum := by
    unfold runSweep
    rw [List.length_map, List.length_range, hsum]
  refine ⟨reconstructSurface_y_length _ _ _, reconstructSurface_z_length _ _ _, ?_⟩
  intro i hi
  have hi' : i < g.counts.length := by rw [hclen]; exact hi
  have hpref : prefixCount g.counts i + g.counts.getD i 0 ≤ (runSweep sim g).length := by
    rw [hrs_len]
    exact sum_take_getD_le g.counts i hi'
  have hres2len : ((runSweep sim g).map (fun t => t.2.2)).length = (runSweep sim g).length :=
    List.length_map _ _
  have hvals_len : ((((runSweep sim g).map (fun t => t.2.2)).drop
      (prefixCount g.counts i)).take (g.counts.getD i 0)).length = g.counts.getD i 0 := by
    rw [List.length_take, List.length_drop, hres2len]
    omega
  rw [reconstructSurface_z_getD _ _ _ i hi]
  constructor
  · rw [countP_isSome_shape, hvals_len]
  · exact drop_isSome_shape _ _ _ hvals_len

theorem C3_reconstruction_shape_witness :
    exSpecC1.alternative_grid = false ∧
    gridGeneration exEnvC1 exSpecC1
      = some (assembleGrid (rectRows exEnvC1 exSpecC1 1) (val_payloads exEnvC1 exSpecC1)) ∧
    (reconstructSurface
        (runSweep exSimC5 (assembleGrid (rectRows exEnvC1 exSpecC1 1)
          (val_payloads exEnvC1 exSpecC1)))
        exSpecC1.n_intervals_payloads
        (assembleGrid (rectRows exEnvC1 exSpecC1 1)
          (val_payloads exEnvC1 exSpecC1)).counts).y.length
      = exSpecC1.n_intervals_payloads :=
  ⟨rfl, by with_unfolding_all rfl,
   (C3_reconstruction_shape exEnvC1 exSpecC1 _ exSimC5 rfl (by with_unfolding_all rfl)).1⟩

/-- C4: grid generation is a pure (deterministic) function of the envelope and
the GridSpec, and the persist/parse cycle of the descriptor file recovers
exactly the written field values — given that Python's numeric text renderings
parse back to the written value (`int(str(n)) == n`; `float(str(x)) == x`,
guaranteed by Python's repr round-trip), which enters as the codec hypotheses
below.  The file layout, line order, token extraction (`split(" ")[-1]`) and
the `== "True\n"` decoding of the boolean are proved outright; consequently
regenerating the grid from the reloaded spec with the identical envelope
reproduces exactly the grid that produced the artifact. -/
theorem C4_gridspec_roundtrip
    (renderN : ℕ → String) (renderQ : ℚ → String)
    (parseN : String → Option ℕ) (parseZ : String → Option ℤ)
    (parseQ : String → Option ℚ) (file_save : String) (s : GridSpecRec)
    (hN : parseN (renderN s.n_intervals_payloads ++ "\n") = some s.n_intervals_payloads)
    (hZ : ∃ z : ℤ, parseZ (renderQ s.range_step ++ "\n") = some z
      ∧ (z : ℚ) = s.range_step)
    (hU : parseQ (renderQ s.upper_limit_box_tolerance ++ "\n")
      = some s.upper_limit_box_tolerance)
    (hL : parseQ (renderQ s.lower_limit_box_tolerance ++ "\n")
      = some s.lower_limit_box_tolerance)
    (hR : parseQ (renderQ s.right_limit_box_tolerance ++ "\n")
      = some s.right_limit_box_tolerance)
    (hLe : parseQ (renderQ s.left_limit_box_tolerance ++ "\n")
      = some s.left_limit_box_tolerance) :
    parseGridConfig parseN parseZ parseQ (writeGridConfig renderN renderQ file_save s)
      = some s ∧
    ∀ env s', parseGridConfig parseN parseZ parseQ
        (writeGridConfig renderN renderQ file_save s) = some s' →
      gridGeneration env s' = gridGeneration env s := by
  obtain ⟨z, hz1, hz2⟩ := hZ
  have hbool : ((if s.alternative_grid then "True" else "False") ++ "\n" == "True\n")
      = s.alternative_grid := by
    cases s.alternative_grid <;> with_unfolding_all rfl
  have hmain : parseGridConfig parseN parseZ parseQ
      (writeGridConfig renderN renderQ file_save s) = some s := by
    unfold parseGridConfig writeGridConfig lastTok
    simp only [List.drop_succ_cons, List.drop_zero, List.get?_cons_zero,
      List.get?_cons_succ, List.getLastD_cons, List.getLastD_nil]
    rw [hN, hz1, hU, hL, hR, hLe]
    show some (⟨s.n_intervals_payloads, (z : ℚ), s.upper_limit_box_tolerance,
      s.lower_limit_box_tolerance, s.right_limit_box_tolerance,
      s.left_limit_box_tolerance,
      (if s.alternative_grid then "True" else "False") ++ "\n" == "True\n"⟩ : GridSpecRec)
      = some s
    rw [hz2, hbool]
  exact ⟨hmain, fun env s' h => by
    rw [hmain] at h
    rw [Option.some.inj h]⟩

/-- The default grid configuration of the source (lines 256-266). -/
def defaultSpec : GridSpecRec := ⟨8, 500, 95/100, 4/10, 95/100, 1/10, false⟩

/-- Witness codec: Python `str` on the naturals appearing in `defaultSpec`. -/
def rNw : ℕ → String := fun n => if n = 8 then "8" else ""

/-- Witness codec: Python `str` on the rationals appearing in `defaultSpec`. -/
def rQw : ℚ → String := fun q =>
  if q = 500 then "500" else if q = 95/100 then "0.95"
  else if q = 4/10 then "0.4" else if q = 1/10 then "0.1" else ""

/-- Witness codec: Python `int` on the tokens appearing in the default file. -/
def pNw : String → Option ℕ := fun t => if t = "8\n" then some 8 else none

/-- Witness codec: Python `int` for the `range_step` line. -/
def pZw : String → Option ℤ := fun t => if t = "500\n" then some 500 else none

/-- Witness codec: Python `float` on the tokens appearing in the default file. -/
def pQw : String → Option ℚ := fun t =>
  if t = "0.95\n" then some (95/100) else if t = "0.4\n" then some (4/10)
  else if t = "0.1\n" then some (1/10) else none

set_option maxRecDepth 100000 in
theorem C4_gridspec_roundtrip_witness :
    pNw (rNw defaultSpec.n_intervals_payloads ++ "\n")
        = some defaultSpec.n_intervals_payloads ∧
    parseGridConfig pNw pZw pQw (writeGridConfig rNw rQw "loop_results.txt" defaultSpec)
        = some defaultSpec ∧
    gridGeneration exEnvC1 defaultSpec = gridGeneration exEnvC1 defaultSpec := by
  have hN : pNw (rNw defaultSpec.n_intervals_payloads ++ "\n")
      = some defaultSpec.n_intervals_payloads := by with_unfolding_all rfl
  have hZ : ∃ z : ℤ, pZw (rQw defaultSpec.range_step ++ "\n") = some z
      ∧ (z : ℚ) = defaultSpec.range_step :=
    ⟨500, by with_unfolding_all rfl, by norm_num [defaultSpec]⟩
  have hU : pQw (rQw defaultSpec.upper_limit_box_tolerance ++ "\n")
      = some defaultSpec.upper_limit_box_tolerance := by with_unfolding_all rfl
  have hL : pQw (rQw defaultSpec.lower_limit_box_tolerance ++ "\n")
      = some defaultSpec.lower_limit_box_tolerance := by with_unfolding_all rfl
  have hR : pQw (rQw defaultSpec.right_limit_box_tolerance ++ "\n")
      = some defaultSpec.right_limit_box_tolerance := by with_unfolding_all rfl
  have hLe : pQw (rQw defaultSpec.left_limit_box_tolerance ++ "\n")
      = some defaultSpec.left_limit_box_tolerance := by with_unfolding_all rfl
  have hmain := C4_gridspec_roundtrip rNw rQw pNw pZw pQw "loop_results.txt" defaultSpec
    hN hZ hU hL hR hLe
  exact ⟨hN, hmain.1, hmain.2 exEnvC1 defaultSpec hmain.1⟩

/-- C10: `breguet_leduc_points` returns `BL_payloads` divided by `10^3`
(line 184) while `BL_ranges` is returned unscaled (line 183); consequently the
envelope extracted by `grid_generation` carries payloads in tonnes and raw
ranges, every grid payload is one of the band payloads derived from the
tonne-scaled `max_payload`, and the sweep persists each grid point's range and
payload verbatim while handing the simulator exactly the grid payload (the
range alone is converted to metres by `* 10^3 * 1.852` for the mission input,
lines 652-654). -/
theorem C10_payload_tonne_scaling (solver : ℚ → ℚ → ℚ → ℚ → ℚ)
    (sizing_range max_payload sizing_payload mtow owe mfw coeff : ℚ)
    (sim : ℚ → ℚ → FuelComps) (env : Envelope) (s : GridSpecRec) (g : GridOut)
    (halt : s.alternative_grid = false) (hg : gridGeneration env s = some g) :
    (breguetLeducPoints solver sizing_range max_payload sizing_payload
        mtow owe mfw coeff).2
      = [max_payload, max_payload, mtow - mfw - owe, 0, sizing_payload].map
          (fun x => x / 10 ^ 3) ∧
    (breguetLeducPoints solver sizing_range max_payload sizing_payload
        mtow owe mfw coeff).1.getD 0 0 = 0 ∧
    (breguetLeducPoints solver sizing_range max_payload sizing_payload
        mtow owe mfw coeff).1.getD 4 0 = sizing_range ∧
    (mkEnvelope (breguetLeducPoints solver sizing_range max_payload sizing_payload
        mtow owe mfw coeff)).max_payload = max_payload / 10 ^ 3 ∧
    (mkEnvelope (breguetLeducPoints solver sizing_range max_payload sizing_payload
        mtow owe mfw coeff)).payload_c = (mtow - mfw - owe) / 10 ^ 3 ∧
    (mkEnvelope (breguetLeducPoints solver sizing_range max_payload sizing_payload
        mtow owe mfw coeff)).ra_c = solver mtow (mtow - mfw) coeff (sizing_range * 10) ∧
    (mkEnvelope (breguetLeducPoints solver sizing_range max_payload sizing_payload
        mtow owe mfw coeff)).ra_d = solver (owe + mfw) owe coeff (sizing_range * 10) ∧
    (∀ p ∈ g.payloads, p ∈ val_payloads env s) ∧
    (∀ i, i < g.ranges.length →
      ((runSweep sim g).getD i (0, 0, 0)).1 = g.ranges.getD i 0 ∧
      ((runSweep sim g).getD i (0, 0, 0)).2.1 = g.payloads.getD i 0 ∧
      (sweepRawFuel sim g).getD i 0
        = (sim (g.payloads.getD i 0) (g.ranges.getD i 0 * 10 ^ 3 * 1.852)).main_route
          + (sim (g.payloads.getD i 0) (g.ranges.getD i 0 * 10 ^ 3 * 1.852)).takeoff
          + (sim (g.payloads.getD i 0) (g.ranges.getD i 0 * 10 ^ 3 * 1.852)).taxi_in
          + (sim (g.payloads.getD i 0) (g.ranges.getD i 0 * 10 ^ 3 * 1.852)).taxi_out) := by
  obtain ⟨c_id, hc⟩ : ∃ c, raCId env s = some c := by
    cases hrc : raCId env s with
    | none => unfold gridGeneration at hg; rw [hrc] at hg; simp at hg
    | some c => exact ⟨c, rfl⟩
  have hrect := gridGeneration_rect env s c_id hc halt
  rw [hrect] at hg
  have hg2 : g = assembleGrid (rectRows env s c_id) (val_payloads env s) :=
    (Option.some.inj hg).symm
  refine ⟨rfl, rfl, rfl, rfl, rfl, rfl, rfl, ?_, ?_⟩
  · intro p hp
    rw [hg2] at hp
    simp only [assembleGrid] at hp
    rw [List.mem_flatten] at hp
    obtain ⟨blk, hblk, hpblk⟩ := hp
    rw [List.mem_map] at hblk
    obtain ⟨rv, hrv, rfl⟩ := hblk
    rw [List.eq_of_mem_replicate hpblk]
    exact (List.of_mem_zip hrv).2
  · intro i hi
    refine ⟨?_, ?_, ?_⟩
    · unfold runSweep
      rw [getD_range_map _ _ _ _ hi]
    · unfold runSweep
      rw [getD_range_map _ _ _ _ hi]
    · unfold sweepRawFuel
      rw [getD_range_map _ _ _ _ hi]

/-- The concrete rectangular grid of `exEnvC1`/`exSpecC1`. -/
def exG10 : GridOut := assembleGrid (rectRows exEnvC1 exSpecC1 1) (val_payloads exEnvC1 exSpecC1)

theorem C10_payload_tonne_scaling_witness :
    exSpecC1.alternative_grid = false ∧
    gridGeneration exEnvC1 exSpecC1 = some exG10 ∧
    ((breguetLeducPoints exSolverC6 10 90 40 100 50 30 1).2
        = [90, 90, 100 - 30 - 50, 0, 40].map (fun x => x / 10 ^ 3) ∧
      (breguetLeducPoints exSolverC6 10 90 40 100 50 30 1).1.getD 0 0 = 0 ∧
      (breguetLeducPoints exSolverC6 10 90 40 100 50 30 1).1.getD 4 0 = 10 ∧
      (mkEnvelope (breguetLeducPoints exSolverC6 10 90 40 100 50 30 1)).max_payload
        = 90 / 10 ^ 3 ∧
      (mkEnvelope (breguetLeducPoints exSolverC6 10 90 40 100 50 30 1)).payload_c
        = (100 - 30 - 50) / 10 ^ 3 ∧
      (mkEnvelope (breguetLeducPoints exSolverC6 10 90 40 100 50 30 1)).ra_c
        = exSolverC6 100 (100 - 30) 1 (10 * 10) ∧
      (mkEnvelope (breguetLeducPoints exSolverC6 10 90 40 100 50 30 1)).ra_d
        = exSolverC6 (50 + 30) 50 1 (10 * 10) ∧
      (∀ p ∈ exG10.payloads, p ∈ val_payloads exEnvC1 exSpecC1) ∧
      (∀ i, i < exG10.ranges.length →
        ((runSweep exSimC5 exG10).getD i (0, 0, 0)).1 = exG10.ranges.getD i 0 ∧
        ((runSweep exSimC5 exG10).getD i (0, 0, 0)).2.1 = exG10.payloads.getD i 0 ∧
        (sweepRawFuel exSimC5 exG10).getD i 0
          = (exSimC5 (exG10.payloads.getD i 0)
              (exG10.ranges.getD i 0 * 10 ^ 3 * 1.852)).main_route
            + (exSimC5 (exG10.payloads.getD i 0)
              (exG10.ranges.getD i 0 * 10 ^ 3 * 1.852)).takeoff
            + (exSimC5 (exG10.payloads.getD i 0)
              (exG10.ranges.getD i 0 * 10 ^ 3 * 1.852)).taxi_in
            + (exSimC5 (exG10.payloads.getD i 0)
              (exG10.ranges.getD i 0 * 10 ^ 3 * 1.852)).taxi_out)) :=
  ⟨rfl, by with_unfolding_all rfl,
   C10_payload_tonne_scaling exSolverC6 10 90 40 100 50 30 1 exSimC5 exEnvC1 exSpecC1
     exG10 rfl (by with_unfolding_all rfl)⟩
